import Mathlib

/-!
Verification of the qingque-api transaction/cache subsystem.

This file is a shallow embedding of the transaction registry, the cache-key
builder, the generation cache and the per-endpoint orchestration of the
qingque-api repository (files `src/domain/transcations.py`,
`src/app/controllers/hoyolab.py`, `src/app/controllers/mihomo.py`,
`src/app/responses.py`, `src/app/settings.py`, `src/domain/i18n.py`).

Python strings are modelled as Lean `String`, Python `bytes` blobs as
`List Nat`, Python `int` as `Int` (or `Nat` for values that are never
negative, such as TTLs), Python `None`-able values as `Option`, and code
that can raise as `Except String`.  Python list subscription, which accepts
negative indices counting from the end, is modelled by `pyGetElem`.
-/

namespace Qingque

/-- Python list subscription `l[i]`: a non-negative index is positional; a
negative index `-k` with `k ≤ len(l)` addresses `l[len(l) - k]`; anything
else raises `IndexError`, modelled as `none`. -/
def pyGetElem {α : Type} (l : List α) (i : Int) : Option α :=
  if 0 ≤ i then l.get? i.toNat
  else if (-i).toNat ≤ l.length then l.get? (l.length - (-i).toNat)
  else none

/-- Python `str(x)` for an optional string: `str(None)` is the literal
string `None`. -/
def pyStr (o : Option String) : String :=
  match o with
  | none => "None"
  | some s => s

/-! ## String facts used throughout -/

theorem sdata_append (a b : String) : (a ++ b).data = a.data ++ b.data :=
  String.data_append a b

theorem sext {a b : String} (h : a.data = b.data) : a = b := by
  cases a; cases b; simp only at h; rw [h]

/-! ## Cache-key builder (`src/domain/transcations.py`, class `TransactionCacheKind`) -/

namespace TransactionCacheKind

def MIHOMO : String := "mihomo"

def MIHOMO_PLAYER : String := "mihomo:player"

def HY_CHRONICLES : String := "hoyolab:chronicles"

def HY_MOC : String := "hoyolab:moc"

def HY_SIMUNIVERSE : String := "hoyolab:simulated_universe"

/-- Translation of `TransactionCacheKind.is_valid`. -/
def is_valid (kind : String) : Bool :=
  kind == MIHOMO || kind == MIHOMO_PLAYER || kind == HY_CHRONICLES
    || kind == HY_MOC || kind == HY_SIMUNIVERSE

/-- The string built by `TransactionCacheKind.make` after the validity
check: Python `f"{kind}:{extra_meta}" if extra_meta else kind`, where an
absent or empty (falsy) `extra_meta` selects the bare kind. -/
def make_raw (kind : String) (extra_meta : Option String) : String :=
  match extra_meta with
  | none => kind
  | some s => if s.isEmpty then kind else kind ++ ":" ++ s

/-- Translation of `TransactionCacheKind.make`: raises
`ValueError(f"Invalid cache kind: {kind}")` when the kind is not one of the
five members, else returns `make_raw`. -/
def make (kind : String) (extra_meta : Option String) : Except String String :=
  if is_valid kind then Except.ok (make_raw kind extra_meta)
  else Except.error ("Invalid cache kind: " ++ kind)

end TransactionCacheKind

/-! ## Credential records (`src/domain/transcations.py`) -/

/-- Translation of the `TransactionHoyolab` msgspec Struct. -/
structure TransactionHoyolab where
  uid : Int
  ltuid : Int
  ltoken : String
  lcookie : Option String
  lmid : Option String
deriving DecidableEq

/-- Modelled from the spec: the service-B profile snapshot
(`domain/mihomo/models/player.py` is not under `src/`); the spec describes
it as a large nested structure whose parts relevant to the controllers are
the player block and the character list, kept here as abstract payload ids. -/
structure Player where
  player : Nat
  characters : List Nat
deriving DecidableEq

/-- Translation of the `TransactionMihomo` msgspec Struct. -/
structure TransactionMihomo where
  uid : Int
  cached : Player
deriving DecidableEq

/-! ## Upstream data fetched by the HoyoLab controller

Modelled from the spec: the `domain/hylab/models` modules are not under
`src/`; the spec treats fetched structures as abstract data validated only
for structural completeness, so each carries abstract payload ids plus the
exact optional sub-sections the controllers test for `None`. -/

/-- Modelled from the spec: `ChronicleUserOverview` with the two optional
sub-sections (`overview`, `user_info`) the controller checks. -/
structure ChronicleUserOverview where
  overview : Option Nat
  user_info : Option Nat
deriving DecidableEq

/-- Modelled from the spec: `ChronicleNotes`, an abstract payload. -/
structure ChronicleNotes where
  payload : Nat
deriving DecidableEq

/-- Modelled from the spec: `ChronicleForgottenHall`, a list of floor
records (each an abstract payload id). -/
structure ChronicleForgottenHall where
  floors : List Nat
deriving DecidableEq

/-! ## The key-value store

Modelled from the spec: `domain/redisdb.py` (`RedisDatabase`) is not under
`src/`.  The spec specifies it at its interface boundary as a TTL-capable
store with `get(key) -> bytes|typed-record|None` and
`setex(key, value, ttl)`; an entry whose TTL has elapsed (modelled as a
zero TTL) is absent, and a typed `get` whose stored record is of a
different variant resolves to absent (spec section 4.1). -/

/-- A value storable in the KV store: either credential-record variant, a
raw byte blob (rendered image), or a memoized upstream payload (possibly
the serialized `None` an upstream call may produce). -/
inductive RVal where
  | trHoyolab (t : TransactionHoyolab)
  | trMihomo (t : TransactionMihomo)
  | blob (b : List Nat)
  | ovData (d : Option ChronicleUserOverview)
  | ntData (d : Option ChronicleNotes)
  | fhData (d : Option ChronicleForgottenHall)
deriving DecidableEq

def RVal.asTrHoyolab : RVal → Option TransactionHoyolab
  | .trHoyolab t => some t
  | _ => none

def RVal.asTrMihomo : RVal → Option TransactionMihomo
  | .trMihomo t => some t
  | _ => none

def RVal.asBlob : RVal → Option (List Nat)
  | .blob b => some b
  | _ => none

def RVal.asOvData : RVal → Option (Option ChronicleUserOverview)
  | .ovData d => some d
  | _ => none

def RVal.asNtData : RVal → Option (Option ChronicleNotes)
  | .ntData d => some d
  | _ => none

def RVal.asFhData : RVal → Option (Option ChronicleForgottenHall)
  | .fhData d => some d
  | _ => none

/-- The store state: an association list, most recent write first. -/
def Store : Type := List (String × RVal × Nat)

/-- Modelled from the spec: `setex(key, value, ttl)` overwrites
unconditionally (last writer wins); the newest write shadows older entries
for the same key. -/
def redisSetex (store : Store) (key : String) (val : RVal) (ttl : Nat) : Store :=
  (key, val, ttl) :: store

/-- The raw stored entry (value and expiry) for a key, ignoring expiry. -/
def rawEntry (store : Store) (key : String) : Option (RVal × Nat) :=
  (List.find? (fun e => e.1 == key) store).map (fun e => e.2)

/-- Modelled from the spec: `get(key)` returns the stored value, or absent
when the key was never set or its TTL has elapsed. -/
def redisGet (store : Store) (key : String) : Option RVal :=
  (rawEntry store key).bind (fun p => if 0 < p.2 then some p.1 else none)

theorem rawEntry_setex_self (store : Store) (k : String) (v : RVal) (t : Nat) :
    rawEntry (redisSetex store k v t) k = some (v, t) := by
  simp [rawEntry, redisSetex, List.find?]

theorem rawEntry_setex_ne (store : Store) {k k' : String} (v : RVal) (t : Nat)
    (h : k' ≠ k) : rawEntry (redisSetex store k v t) k' = rawEntry store k' := by
  simp only [rawEntry, redisSetex, List.find?]
  rw [show (k == k') = false from beq_eq_false_iff_ne.mpr (fun hk => h hk.symm)]

theorem redisGet_setex_self (store : Store) (k : String) (v : RVal) (t : Nat) :
    redisGet (redisSetex store k v t) k = if 0 < t then some v else none := by
  simp [redisGet, rawEntry_setex_self]

theorem redisGet_setex_ne (store : Store) {k k' : String} (v : RVal) (t : Nat)
    (h : k' ≠ k) : redisGet (redisSetex store k v t) k' = redisGet store k' := by
  simp [redisGet, rawEntry_setex_ne store v t h]

/-! ## Transactions helper (`src/domain/transcations.py`, class `TransactionsHelper`) -/

namespace TransactionsHelper

def KEY : String := "qingque:transactions"

/-- The store key of a credential record, Python `f"{self.KEY}:{token}"`. -/
def trKey (token : String) : String := KEY ++ ":" ++ token

/-- The store key of a generation-cache entry, Python
`f"{self.KEY}:{token}:{cache_type}"`. -/
def genCacheKey (token cache_type : String) : String :=
  KEY ++ ":" ++ token ++ ":" ++ cache_type

/-- Lowercase hexadecimal digits: the ten decimal digits followed by the
letters a-f, built from their character codes. -/
def hexChars : List Char :=
  (List.range 10).map (fun n => Char.ofNat (48 + n))
    ++ (List.range 6).map (fun n => Char.ofNat (97 + n))

/-- The two lowercase hex digits encoding one byte. -/
def byteHex (b : Fin 256) : List Char :=
  [hexChars.getD (b.val / 16) '0', hexChars.getD (b.val % 16) '0']

/-- Modelled from the spec: `secrets.token_hex(32)` (Python stdlib) draws
32 random bytes and hex-encodes them in lowercase; the randomness source is
externalized as the list of drawn bytes. -/
def token_hex (randomBytes : List (Fin 256)) : String :=
  String.mk (randomBytes.flatMap byteHex)

/-- Translation of `TransactionsHelper.create`: issues the hex token of the
drawn random bytes, stores the record at `trKey token` with the caller TTL,
and returns the token (paired here with the updated store). -/
def create (store : Store) (randomBytes : List (Fin 256)) (transaction : RVal)
    (ttl : Nat) : String × Store :=
  let token := token_hex randomBytes
  (token, redisSetex store (trKey token) transaction ttl)

/-- Translation of `TransactionsHelper.get` with `type=TransactionHoyolab`:
looks up and deserializes; a missing or expired key, or a record of the
other variant (spec section 4.1 defines the mismatch as absent), is `none`. -/
def getHoyolab (store : Store) (token : String) : Option TransactionHoyolab :=
  (redisGet store (trKey token)).bind RVal.asTrHoyolab

/-- Translation of `TransactionsHelper.get` with `type=TransactionMihomo`. -/
def getMihomo (store : Store) (token : String) : Option TransactionMihomo :=
  (redisGet store (trKey token)).bind RVal.asTrMihomo

/-- Translation of `TransactionsHelper.get_gen_cache`. -/
def get_gen_cache (store : Store) (token cache_type : String) : Option (List Nat) :=
  (redisGet store (genCacheKey token cache_type)).bind RVal.asBlob

/-- Translation of `TransactionsHelper.set_gen_cache`. -/
def set_gen_cache (store : Store) (token cache_type : String) (data : List Nat)
    (ttl : Nat) : Store :=
  redisSetex store (genCacheKey token cache_type) (RVal.blob data) ttl

end TransactionsHelper

/-! ## Languages (`src/domain/i18n.py`, enum `QingqueLanguage`) -/

inductive QingqueLanguage where
  | CHT | CHS | DE | EN | ES | FR | ID | JP | KR | PT | RU | TH | VI
deriving DecidableEq

/-- The enum member value (an ISO-like tag). -/
def QingqueLanguage.value : QingqueLanguage → String
  | .CHT => "zh-TW"
  | .CHS => "zh-CN"
  | .DE => "de-DE"
  | .EN => "en-US"
  | .ES => "es-ES"
  | .FR => "fr-FR"
  | .ID => "id-ID"
  | .JP => "ja-JP"
  | .KR => "ko-KR"
  | .PT => "pt-PT"
  | .RU => "ru-RU"
  | .TH => "th-TH"
  | .VI => "vi-VN"

/-- The enum member name, used in card filenames. -/
def QingqueLanguage.name : QingqueLanguage → String
  | .CHT => "CHT"
  | .CHS => "CHS"
  | .DE => "DE"
  | .EN => "EN"
  | .ES => "ES"
  | .FR => "FR"
  | .ID => "ID"
  | .JP => "JP"
  | .KR => "KR"
  | .PT => "PT"
  | .RU => "RU"
  | .TH => "TH"
  | .VI => "VI"

/-- Python `QingqueLanguage(lang)`: member lookup by value, raising
`ValueError` (modelled as `none`) when no member has that value. -/
def QingqueLanguage.parse (s : String) : Option QingqueLanguage :=
  if s = "zh-TW" then some .CHT
  else if s = "zh-CN" then some .CHS
  else if s = "de-DE" then some .DE
  else if s = "en-US" then some .EN
  else if s = "es-ES" then some .ES
  else if s = "fr-FR" then some .FR
  else if s = "id-ID" then some .ID
  else if s = "ja-JP" then some .JP
  else if s = "ko-KR" then some .KR
  else if s = "pt-PT" then some .PT
  else if s = "ru-RU" then some .RU
  else if s = "th-TH" then some .TH
  else if s = "vi-VN" then some .VI
  else none

/-! ## Error codes (`src/app/responses.py`, enum `ErrorCode`) -/

inductive ErrorCode where
  | SUCCESS | INVALID_LANG | MISSING_UID | MISSING_TOKEN | MISSING_UID_TOKEN
  | INVALID_INDEX | TR_INVALID_TOKEN | TR_FAILED_VERIFICATION | GEN_FAILURE
  | MIHOMO_ERROR | MIHOMO_UID_NOT_FOUND | MIHOMO_INVALID_CHARACTER
  | HOYOLAB_ERROR | HOYOLAB_FETCH_ERROR | HOYOLAB_ACCOUNT_NOT_FOUND
  | HOYOLAB_DATA_NOT_PUBLIC | HOYOLAB_INVALID_COOKIES
  | HOYOLAB_SIMU_UNKNOWN_KIND | HOYOLAB_SIMU_NO_RECORDS | HOYOLAB_SIMU_INVALID_INDEX
deriving DecidableEq

/-- The integer value of each `ErrorCode` member. -/
def ErrorCode.toCode : ErrorCode → Nat
  | .SUCCESS => 0
  | .INVALID_LANG => 100
  | .MISSING_UID => 101
  | .MISSING_TOKEN => 102
  | .MISSING_UID_TOKEN => 103
  | .INVALID_INDEX => 104
  | .TR_INVALID_TOKEN => 1000
  | .TR_FAILED_VERIFICATION => 1001
  | .GEN_FAILURE => 1100
  | .MIHOMO_ERROR => 2000
  | .MIHOMO_UID_NOT_FOUND => 2001
  | .MIHOMO_INVALID_CHARACTER => 2002
  | .HOYOLAB_ERROR => 2100
  | .HOYOLAB_FETCH_ERROR => 2101
  | .HOYOLAB_ACCOUNT_NOT_FOUND => 2102
  | .HOYOLAB_DATA_NOT_PUBLIC => 2103
  | .HOYOLAB_INVALID_COOKIES => 2104
  | .HOYOLAB_SIMU_UNKNOWN_KIND => 2105
  | .HOYOLAB_SIMU_NO_RECORDS => 2106
  | .HOYOLAB_SIMU_INVALID_INDEX => 2107

/-- Python attribute access `ErrorCode.<name>`: the members declared by
`src/app/responses.py` lines 46-71, and `none` (an `AttributeError`) for
any other name. -/
def ErrorCode.fromName (name : String) : Option ErrorCode :=
  if name = "SUCCESS" then some .SUCCESS
  else if name = "INVALID_LANG" then some .INVALID_LANG
  else if name = "MISSING_UID" then some .MISSING_UID
  else if name = "MISSING_TOKEN" then some .MISSING_TOKEN
  else if name = "MISSING_UID_TOKEN" then some .MISSING_UID_TOKEN
  else if name = "INVALID_INDEX" then some .INVALID_INDEX
  else if name = "TR_INVALID_TOKEN" then some .TR_INVALID_TOKEN
  else if name = "TR_FAILED_VERIFICATION" then some .TR_FAILED_VERIFICATION
  else if name = "GEN_FAILURE" then some .GEN_FAILURE
  else if name = "MIHOMO_ERROR" then some .MIHOMO_ERROR
  else if name = "MIHOMO_UID_NOT_FOUND" then some .MIHOMO_UID_NOT_FOUND
  else if name = "MIHOMO_INVALID_CHARACTER" then some .MIHOMO_INVALID_CHARACTER
  else if name = "HOYOLAB_ERROR" then some .HOYOLAB_ERROR
  else if name = "HOYOLAB_FETCH_ERROR" then some .HOYOLAB_FETCH_ERROR
  else if name = "HOYOLAB_ACCOUNT_NOT_FOUND" then some .HOYOLAB_ACCOUNT_NOT_FOUND
  else if name = "HOYOLAB_DATA_NOT_PUBLIC" then some .HOYOLAB_DATA_NOT_PUBLIC
  else if name = "HOYOLAB_INVALID_COOKIES" then some .HOYOLAB_INVALID_COOKIES
  else if name = "HOYOLAB_SIMU_UNKNOWN_KIND" then some .HOYOLAB_SIMU_UNKNOWN_KIND
  else if name = "HOYOLAB_SIMU_NO_RECORDS" then some .HOYOLAB_SIMU_NO_RECORDS
  else if name = "HOYOLAB_SIMU_INVALID_INDEX" then some .HOYOLAB_SIMU_INVALID_INDEX
  else none

/-! ## Application settings (`src/app/settings.py`, Struct `App`) -/

/-- The value of a struct attribute, as seen by dynamic attribute access. -/
inductive AppValue where
  | boolVal (b : Bool)
  | natVal (n : Nat)
  | strVal (s : String)
deriving DecidableEq

/-- Translation of the `App` msgspec Struct: exactly the fields declared at
`src/app/settings.py` lines 51-58. -/
structure App where
  show_error_details : Bool
  transaction_ttl : Nat
  mihomo_ttl : Nat
  image_ttl : Nat
deriving DecidableEq

/-- The declared field names of `App`. -/
def App.fieldNames : List String :=
  ["show_error_details", "transaction_ttl", "mihomo_ttl", "image_ttl"]

/-- Python attribute access `settings.app.<name>`: a msgspec Struct raises
`AttributeError` (modelled as `none`) for any name that is not a declared
field. -/
def App.getattr (a : App) (name : String) : Option AppValue :=
  if name = "show_error_details" then some (.boolVal a.show_error_details)
  else if name = "transaction_ttl" then some (.natVal a.transaction_ttl)
  else if name = "mihomo_ttl" then some (.natVal a.mihomo_ttl)
  else if name = "image_ttl" then some (.natVal a.image_ttl)
  else none

/-- Python truthiness of an attribute value. -/
def AppValue.truthy : AppValue → Bool
  | .boolVal b => b
  | .natVal n => n != 0
  | .strVal s => !s.isEmpty

/-- Python `token != strict_token_value` for the header token against a
string-valued attribute. -/
def pyTokenNe (x_token : Option String) : AppValue → Bool
  | .strVal s => !(x_token == some s)
  | _ => true

/-- Translation of `HoyoLab._strict_mode_allow`
(`src/app/controllers/hoyolab.py` lines 623-627): reads
`settings.app.strict_mode` and (when truthy) `settings.app.strict_token`
through Python attribute access, which raises `AttributeError` for fields
`App` does not declare. -/
def strict_mode_allow (app : App) (x_token : Option String) : Except String Bool :=
  match App.getattr app "strict_mode" with
  | none => Except.error "AttributeError: strict_mode"
  | some sm =>
    if sm.truthy then
      match App.getattr app "strict_token" with
      | none => Except.error "AttributeError: strict_token"
      | some st =>
        if st.truthy && pyTokenNe x_token st then Except.ok false else Except.ok true
    else Except.ok true

/-- The strict-mode gate prefix shared by every `/info/...` route
(`src/app/controllers/hoyolab.py` lines 635-639 and analogues): on a
non-allowed request it builds `ErrorResponse(ErrorCode.STRICT_MODE_DISALLOW, ...)`
with status 403, an enum member looked up by name at request time.
`Except.error` is an exception escaping the handler; `Except.ok none` means
the request proceeds to the route body; `Except.ok (some (c, s))` is a
JSON error envelope with code `c` and HTTP status `s`. -/
def info_route_strict_gate (app : App) (x_token : Option String) :
    Except String (Option (ErrorCode × Nat)) :=
  match strict_mode_allow app x_token with
  | Except.error e => Except.error e
  | Except.ok true => Except.ok none
  | Except.ok false =>
    match ErrorCode.fromName "STRICT_MODE_DISALLOW" with
    | none => Except.error "AttributeError: STRICT_MODE_DISALLOW"
    | some c => Except.ok (some (c, 403))

/-! ## Upstream HoyoLab calls and their memoization wrapper
(`src/app/controllers/hoyolab.py`, `HoyoLab._wrap_hoyo_call`) -/

/-- The exception outcomes of an upstream HoyoLab call seen by
`_wrap_hoyo_call`: the three `HYLabException` subclasses it catches by
name, any other `HYLabException` (caught by the generic handler but still
an `HYLabException` instance to the caller), and any other exception. -/
inductive HYErrKind where
  | dataNotPublic | accountNotFound | invalidCookies | otherHY | otherExn
deriving DecidableEq

/-- The result of one upstream call: the value the coroutine returned
(possibly `None`), or the exception it raised. -/
inductive UpstreamResult (β : Type) where
  | ok (v : β)
  | err (e : HYErrKind)
deriving DecidableEq

/-- The error envelope the HoyoLab routes build from a wrapped-call
exception via `_ERROR_MAPS` (default `HOYOLAB_ERROR`); all are served with
status 500. -/
def hylab_error_code : HYErrKind → ErrorCode
  | .dataNotPublic => .HOYOLAB_DATA_NOT_PUBLIC
  | .accountNotFound => .HOYOLAB_ACCOUNT_NOT_FOUND
  | .invalidCookies => .HOYOLAB_INVALID_COOKIES
  | .otherHY => .HOYOLAB_ERROR
  | .otherExn => .HOYOLAB_ERROR

/-- The memoization key of `_wrap_hoyo_call`, Python
`f"qingque::hoyolabcache::{token}::{func_name}::args:{args_str}::kwargs:{kwargs_str}"`. -/
def hoyoWrapKey (token fn argsStr kwargsStr : String) : String :=
  "qingque::hoyolabcache::" ++ token ++ "::" ++ fn ++ "::args:" ++ argsStr
    ++ "::kwargs:" ++ kwargsStr

/-- Translation of `HoyoLab._wrap_hoyo_call` around one upstream call:
return the memoized value when the key is live in the store; otherwise
perform the call, memoizing the returned value for 60 seconds on success
and passing exceptions through without touching the store.  `proj` and
`inj` are the typed deserialization/serialization of the payload. -/
def wrap_hoyo_call {β : Type} (proj : RVal → Option β) (inj : β → RVal)
    (store : Store) (cache_key : String) (call : UpstreamResult β) :
    UpstreamResult β × Store :=
  match (redisGet store cache_key).bind proj with
  | some v => (UpstreamResult.ok v, store)
  | none =>
    match call with
    | .ok v => (UpstreamResult.ok v, redisSetex store cache_key (inj v) 60)
    | .err e => (UpstreamResult.err e, store)

/-! ## Route orchestration models -/

/-- A terminal request outcome: a served PNG byte blob, or a JSON error
envelope with an `ErrorCode` and an HTTP status. -/
inductive Outcome where
  | served (bytes : List Nat)
  | jsonError (code : ErrorCode) (status : Nat)
deriving DecidableEq

/-- Translation of `HoyoLab._make_cache_key`: prefixes the caller suffix
with `f"{transact.uid}:{transact.ltuid}"` (the suffix joined with a colon
when non-empty) and feeds it to `TransactionCacheKind.make`; the kinds used
by the routes are always valid, so `make` never raises here and equals
`make_raw`. -/
def hoyolabCacheKey (kind : String) (transact : TransactionHoyolab) (suffix : String) :
    String :=
  TransactionCacheKind.make_raw kind
    (some (toString transact.uid ++ ":" ++ toString transact.ltuid
      ++ (if suffix.isEmpty then "" else ":" ++ suffix)))

/-- The keyword-argument fingerprint shared by the chronicle calls,
Python `",".join(f"{key}={value}" for ...)` over
`hylab_id, hylab_token, hylab_mid_token, lang`; the `HYLanguage` member is
built from the lowercased language value (its string rendering is modelled
by that value). -/
def chronKwargs (transact : TransactionHoyolab) (q : QingqueLanguage) : String :=
  "hylab_id=" ++ toString transact.ltuid ++ ",hylab_token=" ++ transact.ltoken
    ++ ",hylab_mid_token=" ++ pyStr transact.lmid ++ ",lang=" ++ q.value.toLower

/-- The memoization key of the overview call in `create_chronicles_card`. -/
def overviewWrapKey (token : String) (transact : TransactionHoyolab)
    (q : QingqueLanguage) : String :=
  hoyoWrapKey token "get_battle_chronicles_overview" (toString transact.uid)
    (chronKwargs transact q)

/-- The memoization key of the real-time-notes call in
`create_chronicles_card`. -/
def notesWrapKey (token : String) (transact : TransactionHoyolab)
    (q : QingqueLanguage) : String :=
  hoyoWrapKey token "get_battle_chronicles_notes" (toString transact.uid)
    (chronKwargs transact q)

/-- The external collaborators of `create_chronicles_card`: the two
upstream call results and the card generator (deterministic bytes from the
fetched structures), plus the configured image TTL. -/
structure ChroniclesEnv where
  overviewCall : UpstreamResult (Option ChronicleUserOverview)
  notesCall : UpstreamResult (Option ChronicleNotes)
  render : ChronicleUserOverview → ChronicleNotes → List Nat
  imageTtl : Nat

/-- The fetch/validate/render/store tail of `create_chronicles_card`
(after language, token and cache gates). -/
def chronicles_generate (env : ChroniclesEnv) (token : String)
    (q : QingqueLanguage) (store : Store) (cached : TransactionHoyolab)
    (cache_key : String) : Outcome × Store :=
  match wrap_hoyo_call RVal.asOvData RVal.ovData store
      (overviewWrapKey token cached q) env.overviewCall with
  | (.err e, store₁) => (.jsonError (hylab_error_code e) 500, store₁)
  | (.ok none, store₁) => (.jsonError .HOYOLAB_ERROR 500, store₁)
  | (.ok (some ov), store₁) =>
    match ov.overview with
    | none => (.jsonError .HOYOLAB_ERROR 500, store₁)
    | some _ =>
      match ov.user_info with
      | none => (.jsonError .HOYOLAB_ERROR 500, store₁)
      | some _ =>
        match wrap_hoyo_call RVal.asNtData RVal.ntData store₁
            (notesWrapKey token cached q) env.notesCall with
        | (.err e, store₂) => (.jsonError (hylab_error_code e) 500, store₂)
        | (.ok none, store₂) => (.jsonError .HOYOLAB_ERROR 500, store₂)
        | (.ok (some nt), store₂) =>
          let results := env.render ov nt
          (.served results,
            TransactionsHelper.set_gen_cache store₂ token cache_key results env.imageTtl)

/-- Translation of `HoyoLab.create_chronicles_card`
(`src/app/controllers/hoyolab.py` lines 177-269): language gate, token
resolution (403 on absent), generation-cache read unless `nocache`, then
fetch + validate + render + generation-cache write. -/
def create_chronicles_card (env : ChroniclesEnv) (token lang : String)
    (nocache : Bool) (store : Store) : Outcome × Store :=
  match QingqueLanguage.parse lang with
  | none => (.jsonError .INVALID_LANG 400, store)
  | some q =>
    match TransactionsHelper.getHoyolab store token with
    | none => (.jsonError .TR_INVALID_TOKEN 403, store)
    | some cached =>
      let cache_key :=
        hoyolabCacheKey TransactionCacheKind.HY_CHRONICLES cached
          ("overview:" ++ q.value)
      match (if nocache then none else
          TransactionsHelper.get_gen_cache store token cache_key) with
      | some card => (.served card, store)
      | none => chronicles_generate env token q store cached cache_key

/-! ### Memory of Chaos route -/

inductive HYMoCKind where
  | Current | Previous
deriving DecidableEq

def HYMoCKind.value : HYMoCKind → String
  | .Current => "current"
  | .Previous => "previous"

/-- Python `HYMoCKind(kind)`: member lookup by value. -/
def HYMoCKind.parse (s : String) : Option HYMoCKind :=
  if s = "current" then some .Current
  else if s = "previous" then some .Previous
  else none

/-- The keyword-argument fingerprint of the forgotten-hall call (the
`previous` flag precedes the credential fields). -/
def mocKwargs (qk : HYMoCKind) (transact : TransactionHoyolab)
    (q : QingqueLanguage) : String :=
  "previous=" ++ (if qk = HYMoCKind.Previous then "True" else "False")
    ++ ",hylab_id=" ++ toString transact.ltuid ++ ",hylab_token=" ++ transact.ltoken
    ++ ",hylab_mid_token=" ++ pyStr transact.lmid ++ ",lang=" ++ q.value.toLower

/-- The memoization key of the forgotten-hall call. -/
def mocWrapKey (token : String) (transact : TransactionHoyolab) (qk : HYMoCKind)
    (q : QingqueLanguage) : String :=
  hoyoWrapKey token "get_battle_chronicles_forgotten_hall" (toString transact.uid)
    (mocKwargs qk transact q)

/-- The external collaborators of `create_chronicles_moc`. -/
structure MoCEnv where
  fhCall : UpstreamResult (Option ChronicleForgottenHall)
  renderFloor : Nat → List Nat
  imageTtl : Nat

/-- Translation of `HoyoLab.create_chronicles_moc`
(`src/app/controllers/hoyolab.py` lines 525-619).  The floor parameter is
1-based and re-mapped through `floor = len(floors) - floor` before the
subscription `floors[floor]`, whose `IndexError` is answered with a 400;
the subscription itself follows Python semantics (`pyGetElem`), so a
negative re-mapped index within `-len(floors)` serves a floor counted from
the end instead of raising. -/
def create_chronicles_moc (env : MoCEnv) (kind : String) (floor : Int)
    (token lang : String) (nocache : Bool) (store : Store) : Outcome × Store :=
  match QingqueLanguage.parse lang with
  | none => (.jsonError .INVALID_LANG 400, store)
  | some q =>
    match HYMoCKind.parse kind with
    | none => (.jsonError .HOYOLAB_SIMU_UNKNOWN_KIND 400, store)
    | some qk =>
      if floor < 1 then (.jsonError .INVALID_INDEX 400, store)
      else
        match TransactionsHelper.getHoyolab store token with
        | none => (.jsonError .TR_INVALID_TOKEN 403, store)
        | some cached =>
          let cache_key :=
            hoyolabCacheKey TransactionCacheKind.HY_MOC cached
              (qk.value ++ ":FLOOR_" ++ toString floor ++ ":" ++ q.value)
          match (if nocache then none else
              TransactionsHelper.get_gen_cache store token cache_key) with
          | some card => (.served card, store)
          | none =>
            match wrap_hoyo_call RVal.asFhData RVal.fhData store
                (mocWrapKey token cached qk q) env.fhCall with
            | (.err e, store₁) => (.jsonError (hylab_error_code e) 500, store₁)
            | (.ok none, store₁) => (.jsonError .HOYOLAB_ERROR 500, store₁)
            | (.ok (some moc), store₁) =>
              let floorIdx : Int := (moc.floors.length : Int) - floor
              match pyGetElem moc.floors floorIdx with
              | none => (.jsonError .HOYOLAB_SIMU_INVALID_INDEX 400, store₁)
              | some floor_data =>
                let results := env.renderFloor floor_data
                (.served results,
                  TransactionsHelper.set_gen_cache store₁ token cache_key results
                    env.imageTtl)

/-! ### Mihomo profile-card route (`src/app/controllers/mihomo.py`) -/

/-- The result of `MihomoAPI.get_player`: the player data, or an
`aiohttp.ClientResponseError` with an HTTP status. -/
inductive MihomoCall where
  | ok (p : Player)
  | httpError (status : Nat)
deriving DecidableEq

/-- The external collaborators of `Mihomo.create_profile_card`. -/
structure MihomoEnv where
  getPlayer : MihomoCall
  render : Nat → List Nat
  imageTtl : Nat

/-- Translation of `Mihomo._make_cache_key_chara`. -/
def mihomoCharaMeta (character : Int) (q : QingqueLanguage) (detailed : Bool) : String :=
  "INDEX_" ++ toString character ++ "_" ++ q.name
    ++ (if detailed then "_detailed" else "")

/-- The fetch/validate/render/store tail of `create_profile_card` shared by
the token and raw-uid flows (`src/app/controllers/mihomo.py` lines
238-277). -/
def profile_after_auth (env : MihomoEnv) (character : Int) (tokenOpt : Option String)
    (cache_key : String) (store : Store) (uid : Option Int) (data : Option Player) :
    Outcome × Store :=
  match
    (match uid, data with
    | some _, none =>
      match env.getPlayer with
      | .ok p => Except.ok (some p)
      | .httpError status =>
        Except.error (Outcome.jsonError
          (if status ≠ 404 then ErrorCode.MIHOMO_ERROR else ErrorCode.MIHOMO_UID_NOT_FOUND)
          (if status ≠ 404 then 503 else 404))
    | _, _ => Except.ok data) with
  | Except.error out => (out, store)
  | Except.ok none => (.jsonError .MIHOMO_UID_NOT_FOUND 404, store)
  | Except.ok (some d) =>
    match pyGetElem d.characters (character - 1) with
    | none => (.jsonError .MIHOMO_INVALID_CHARACTER 400, store)
    | some chara =>
      let results := env.render chara
      match tokenOpt with
      | some t =>
        (.served results,
          TransactionsHelper.set_gen_cache store t cache_key results env.imageTtl)
      | none => (.served results, store)

/-- Translation of `Mihomo.create_profile_card`
(`src/app/controllers/mihomo.py` lines 200-277).  With a token present the
route reads both the credential record and the generation-cache entry
before deciding validity, and serves any cached image even when the token
record is absent (lines 227-229). -/
def create_profile_card (env : MihomoEnv) (character : Int) (uid : Option Int)
    (token : Option String) (lang : String) (detailed : Bool) (store : Store) :
    Outcome × Store :=
  match QingqueLanguage.parse lang with
  | none => (.jsonError .INVALID_LANG 400, store)
  | some q =>
    if uid.isNone && token.isNone then (.jsonError .MISSING_UID_TOKEN 400, store)
    else
      let cache_key :=
        TransactionCacheKind.make_raw TransactionCacheKind.MIHOMO
          (some (mihomoCharaMeta character q detailed))
      match token with
      | some t =>
        match TransactionsHelper.getMihomo store t,
            TransactionsHelper.get_gen_cache store t cache_key with
        | none, some b => (.served b, store)
        | some _, some b => (.served b, store)
        | none, none => (.jsonError .TR_INVALID_TOKEN 403, store)
        | some c, none =>
          profile_after_auth env character (some t) cache_key store
            (some c.uid) (some c.cached)
      | none => profile_after_auth env character none cache_key store uid none

/-! ## String toolkit for the key-disjointness proofs -/

theorem length_pos_of_ne_empty (b : String) (hb : b ≠ "") : 0 < b.length := by
  rcases Nat.eq_zero_or_pos b.length with h | h
  · exact absurd (sext (List.length_eq_zero.mp h)) hb
  · exact h

theorem take_ne_extend {p₁ p₂ : String} (n : Nat) (h₁ : n ≤ p₁.data.length)
    (h₂ : n ≤ p₂.data.length) (hd : p₁.data.take n ≠ p₂.data.take n)
    (s₁ s₂ : String) : p₁ ++ s₁ ≠ p₂ ++ s₂ := by
  intro h
  apply hd
  have hdata := congrArg String.data h
  rw [sdata_append, sdata_append] at hdata
  calc p₁.data.take n
      = (p₁.data ++ s₁.data).take n := (List.take_append_of_le_length h₁).symm
    _ = (p₂.data ++ s₂.data).take n := by rw [hdata]
    _ = p₂.data.take n := List.take_append_of_le_length h₂

theorem isPrefixOf_append_self (l t : List Char) : l.isPrefixOf (l ++ t) = true := by
  induction l with
  | nil => simp [List.isPrefixOf]
  | cons c cs ih => simp [List.isPrefixOf, ih]

theorem append_overlap (p q x y : List Char) (h : p ++ x = q ++ y) :
    (∃ d, q = p ++ d) ∨ ∃ d, p = q ++ d := by
  rcases List.append_eq_append_iff.mp h with ⟨e, he, _⟩ | ⟨e, he, _⟩
  · exact Or.inl ⟨e, he⟩
  · exact Or.inr ⟨e, he⟩

theorem split_colon :
    ∀ (a b x y : List Char), ':' ∉ a → ':' ∉ b →
      a ++ ':' :: x = b ++ ':' :: y → a = b ∧ x = y := by
  intro a
  induction a with
  | nil =>
    intro b x y _ hb h
    cases b with
    | nil => simpa using h
    | cons c bs =>
      rw [List.nil_append, List.cons_append] at h
      injection h with h1 _
      exact absurd (h1 ▸ List.mem_cons_self c bs) hb
  | cons c as ih =>
    intro b x y ha hb h
    cases b with
    | nil =>
      rw [List.nil_append, List.cons_append] at h
      injection h with h1 _
      exact absurd (h1 ▸ List.mem_cons_self c as) ha
    | cons d bs =>
      rw [List.cons_append, List.cons_append] at h
      injection h with h1 h2
      obtain ⟨h3, h4⟩ := ih bs x y (fun hm => ha (List.mem_cons_of_mem _ hm))
        (fun hm => hb (List.mem_cons_of_mem _ hm)) h2
      exact ⟨by rw [h1, h3], h4⟩

/-- A token free of the `:` delimiter (every token issued by
`TransactionsHelper.create` is lowercase hex, hence colon-free). -/
def noColon (s : String) : Prop := ':' ∉ s.data

instance (s : String) : Decidable (noColon s) :=
  inferInstanceAs (Decidable (':' ∉ s.data))

/-! ### Injectivity facts about `make_raw` -/

theorem make_raw_same_kind (k : String) {s₁ s₂ : Option String}
    (hs₁ : s₁ ≠ some "") (hs₂ : s₂ ≠ some "")
    (h : TransactionCacheKind.make_raw k s₁ = TransactionCacheKind.make_raw k s₂) :
    s₁ = s₂ := by
  have hb : ∀ b : String, b ≠ "" → b.isEmpty = false := by
    intro b hbne
    cases hbe : b.isEmpty
    · rfl
    · exact absurd ((String.isEmpty_iff b).mp hbe) hbne
  cases s₁ with
  | none =>
    cases s₂ with
    | none => rfl
    | some b =>
      have hbne : b ≠ "" := fun hb2 => hs₂ (by rw [hb2])
      simp only [TransactionCacheKind.make_raw, hb b hbne, Bool.false_eq_true,
        if_false] at h
      have := congrArg String.length h
      rw [String.length_append, String.length_append] at this
      have hpos := length_pos_of_ne_empty b hbne
      omega
  | some a =>
    have hane : a ≠ "" := fun ha2 => hs₁ (by rw [ha2])
    cases s₂ with
    | none =>
      simp only [TransactionCacheKind.make_raw, hb a hane, Bool.false_eq_true,
        if_false] at h
      have := congrArg String.length h
      rw [String.length_append, String.length_append] at this
      have hpos := length_pos_of_ne_empty a hane
      omega
    | some b =>
      have hbne : b ≠ "" := fun hb2 => hs₂ (by rw [hb2])
      simp only [TransactionCacheKind.make_raw, hb a hane, hb b hbne,
        Bool.false_eq_true, if_false] at h
      have hdata := congrArg String.data h
      simp only [sdata_append, List.append_assoc] at hdata
      have h1 := List.append_cancel_left hdata
      have h2 := List.append_cancel_left h1
      exact congrArg some (sext h2)

theorem make_raw_diff_kind {k₁ k₂ : String} (hne : k₁ ≠ k₂)
    (h₁ : (k₁.data ++ [':']).isPrefixOf k₂.data = false)
    (h₂ : (k₂.data ++ [':']).isPrefixOf k₁.data = false)
    {s₁ s₂ : Option String} (hs₁ : s₁ ≠ some "") (hs₂ : s₂ ≠ some "") :
    TransactionCacheKind.make_raw k₁ s₁ ≠ TransactionCacheKind.make_raw k₂ s₂ := by
  have hb : ∀ b : String, b ≠ "" → b.isEmpty = false := by
    intro b hbne
    cases hbe : b.isEmpty
    · rfl
    · exact absurd ((String.isEmpty_iff b).mp hbe) hbne
  intro h
  cases s₁ with
  | none =>
    cases s₂ with
    | none => exact hne h
    | some b =>
      have hbne : b ≠ "" := fun hb2 => hs₂ (by rw [hb2])
      simp only [TransactionCacheKind.make_raw, hb b hbne, Bool.false_eq_true,
        if_false] at h
      have hd := congrArg String.data h
      simp only [sdata_append, List.append_assoc] at hd
      rw [← List.append_assoc] at hd
      rw [hd, isPrefixOf_append_self] at h₂
      exact Bool.true_eq_false.mp h₂
  | some a =>
    have hane : a ≠ "" := fun ha2 => hs₁ (by rw [ha2])
    cases s₂ with
    | none =>
      simp only [TransactionCacheKind.make_raw, hb a hane, Bool.false_eq_true,
        if_false] at h
      have hd := congrArg String.data h
      simp only [sdata_append, List.append_assoc] at hd
      rw [← List.append_assoc] at hd
      rw [← hd, isPrefixOf_append_self] at h₁
      exact Bool.true_eq_false.mp h₁
    | some b =>
      have hbne : b ≠ "" := fun hb2 => hs₂ (by rw [hb2])
      simp only [TransactionCacheKind.make_raw, hb a hane, hb b hbne,
        Bool.false_eq_true, if_false] at h
      have hd := congrArg String.data h
      simp only [sdata_append, List.append_assoc, List.singleton_append] at hd
      rcases append_overlap _ _ _ _ hd with ⟨d, hd2⟩ | ⟨d, hd2⟩
      · cases d with
        | nil => exact hne (sext (by simpa using hd2.symm))
        | cons e d₂ =>
          rw [hd2, List.append_assoc] at hd
          have h3 := List.append_cancel_left hd
          rw [List.cons_append] at h3
          injection h3 with h4 _
          rw [hd2, ← h4] at h₁
          rw [show (':' :: d₂ : List Char) = [':'] ++ d₂ from rfl,
            ← List.append_assoc, isPrefixOf_append_self] at h₁
          exact Bool.true_eq_false.mp h₁
      · cases d with
        | nil => exact hne (sext (by simpa using hd2))
        | cons e d₂ =>
          rw [hd2, List.append_assoc] at hd
          have h3 := (List.append_cancel_left hd.symm)
          rw [List.cons_append] at h3
          injection h3 with h4 _
          rw [hd2, ← h4] at h₂
          rw [show (':' :: d₂ : List Char) = [':'] ++ d₂ from rfl,
            ← List.append_assoc, isPrefixOf_append_self] at h₂
          exact Bool.true_eq_false.mp h₂

theorem make_raw_inj {k₁ k₂ : String} {s₁ s₂ : Option String}
    (hv₁ : TransactionCacheKind.is_valid k₁ = true)
    (hv₂ : TransactionCacheKind.is_valid k₂ = true)
    (hs₁ : s₁ ≠ some "") (hs₂ : s₂ ≠ some "")
    (hmix : ¬((k₁ = TransactionCacheKind.MIHOMO ∧ k₂ = TransactionCacheKind.MIHOMO_PLAYER) ∨
        (k₁ = TransactionCacheKind.MIHOMO_PLAYER ∧ k₂ = TransactionCacheKind.MIHOMO)))
    (h : TransactionCacheKind.make_raw k₁ s₁ = TransactionCacheKind.make_raw k₂ s₂) :
    k₁ = k₂ ∧ s₁ = s₂ := by
  have hk₁ : k₁ = "mihomo" ∨ k₁ = "mihomo:player" ∨ k₁ = "hoyolab:chronicles"
      ∨ k₁ = "hoyolab:moc" ∨ k₁ = "hoyolab:simulated_universe" := by
    simpa [TransactionCacheKind.is_valid, TransactionCacheKind.MIHOMO,
      TransactionCacheKind.MIHOMO_PLAYER, TransactionCacheKind.HY_CHRONICLES,
      TransactionCacheKind.HY_MOC, TransactionCacheKind.HY_SIMUNIVERSE, or_assoc] using hv₁
  have hk₂ : k₂ = "mihomo" ∨ k₂ = "mihomo:player" ∨ k₂ = "hoyolab:chronicles"
      ∨ k₂ = "hoyolab:moc" ∨ k₂ = "hoyolab:simulated_universe" := by
    simpa [TransactionCacheKind.is_valid, TransactionCacheKind.MIHOMO,
      TransactionCacheKind.MIHOMO_PLAYER, TransactionCacheKind.HY_CHRONICLES,
      TransactionCacheKind.HY_MOC, TransactionCacheKind.HY_SIMUNIVERSE, or_assoc] using hv₂
  have hmix2 : ¬((k₁ = "mihomo" ∧ k₂ = "mihomo:player") ∨
      (k₁ = "mihomo:player" ∧ k₂ = "mihomo")) := by
    simpa [TransactionCacheKind.MIHOMO, TransactionCacheKind.MIHOMO_PLAYER] using hmix
  clear hv₁ hv₂ hmix
  rcases hk₁ with rfl | rfl | rfl | rfl | rfl <;>
    rcases hk₂ with rfl | rfl | rfl | rfl | rfl <;>
    first
      | exact ⟨rfl, make_raw_same_kind _ hs₁ hs₂ h⟩
      | exact (hmix2 (Or.inl ⟨rfl, rfl⟩)).elim
      | exact (hmix2 (Or.inr ⟨rfl, rfl⟩)).elim
      | exact (make_raw_diff_kind (by decide) (by decide) (by decide) hs₁ hs₂ h).elim

/-! ## Claim theorems -/

/-- Claim C4 (counterexample): as stated, the claim requires a success
with a given suffix to be the string `kind ++ ":" ++ suffix`; at the empty
suffix the code instead returns the bare kind (`"mihomo"`, not
`"mihomo:"`), because Python tests the suffix for truthiness rather than
presence. -/
theorem C4_counterexample :
    TransactionCacheKind.make TransactionCacheKind.MIHOMO (some "")
        = Except.ok TransactionCacheKind.MIHOMO
      ∧ TransactionCacheKind.MIHOMO
        ≠ TransactionCacheKind.MIHOMO ++ ":" ++ "" :=
  ⟨rfl, by decide⟩

/-- Claim C4 (amended): `TransactionCacheKind.make` is a pure function
(being a Lean function, it is deterministic by construction); it fails
with the `invalid cache kind` error exactly when the kind is not one of
the five members, regardless of suffix; on success it returns the kind
alone when the suffix is absent or empty, else `kind ++ ":" ++ suffix`. -/
theorem C4_make_contract (kind : String) (suffix : Option String) :
    (TransactionCacheKind.is_valid kind = false →
      TransactionCacheKind.make kind suffix
        = Except.error ("Invalid cache kind: " ++ kind))
    ∧ (TransactionCacheKind.is_valid kind = true →
      TransactionCacheKind.make kind suffix
        = Except.ok (match suffix with
            | none => kind
            | some s => if s = "" then kind else kind ++ ":" ++ s)) := by
  constructor
  · intro h
    simp [TransactionCacheKind.make, h]
  · intro h
    simp only [TransactionCacheKind.make, h, if_true]
    cases suffix with
    | none => rfl
    | some s =>
      by_cases hs : s = ""
      · subst hs
        have he : ("" : String).isEmpty = true := rfl
        simp [TransactionCacheKind.make_raw, he]
      · have hse : s.isEmpty = false := by
          cases hbe : s.isEmpty
          · rfl
          · exact absurd ((String.isEmpty_iff s).mp hbe) hs
        simp [TransactionCacheKind.make_raw, hse, hs]

/-- Witness for C4: a valid kind with a non-empty suffix succeeds with the
joined key, and an unknown kind fails with the recognizable error. -/
theorem C4_witness :
    TransactionCacheKind.make "hoyolab:moc" (some "current:FLOOR_1:en-US")
        = Except.ok "hoyolab:moc:current:FLOOR_1:en-US"
      ∧ TransactionCacheKind.make "bogus" (some "x")
        = Except.error "Invalid cache kind: bogus" := by
  constructor
  · have h := (C4_make_contract "hoyolab:moc" (some "current:FLOOR_1:en-US")).2 (by decide)
    exact h.trans rfl
  · have h := (C4_make_contract "bogus" (some "x")).1 (by decide)
    exact h.trans rfl

/-- Claim C10: for every valid kind, an empty suffix is treated exactly
like an absent suffix; `make kind ""` succeeds with the bare kind, the
same key `make kind` with no suffix addresses. -/
theorem C10_empty_suffix_collapse (kind : String)
    (h : TransactionCacheKind.is_valid kind = true) :
    TransactionCacheKind.make kind (some "") = Except.ok kind
      ∧ TransactionCacheKind.make kind (some "")
        = TransactionCacheKind.make kind none := by
  constructor
  · have he : ("" : String).isEmpty = true := rfl
    simp [TransactionCacheKind.make, h, TransactionCacheKind.make_raw, he]
  · rfl

/-- Witness for C10 at the `mihomo` kind. -/
theorem C10_witness :
    TransactionCacheKind.make "mihomo" (some "") = Except.ok "mihomo"
      ∧ TransactionCacheKind.make "mihomo" (some "")
        = TransactionCacheKind.make "mihomo" none :=
  C10_empty_suffix_collapse "mihomo" (by decide)

/-- Claim C2 (counterexample): the generation-cache key map is not
injective over `(token, kind, suffix)` tuples: with the same token, the
`mihomo` kind with suffix `player:EN` and the `mihomo:player` kind with
suffix `EN` build the same cache key, hence address the same store key. -/
theorem C2_counterexample :
    TransactionCacheKind.make TransactionCacheKind.MIHOMO (some "player:EN")
        = TransactionCacheKind.make TransactionCacheKind.MIHOMO_PLAYER (some "EN")
      ∧ TransactionCacheKind.MIHOMO ≠ TransactionCacheKind.MIHOMO_PLAYER
      ∧ TransactionsHelper.genCacheKey
          "9f86d081884c7d659a2feaa0c55ad015a3bf4f1b2b0b822cd15d6c15b0f00a08"
          (TransactionCacheKind.make_raw TransactionCacheKind.MIHOMO (some "player:EN"))
        = TransactionsHelper.genCacheKey
          "9f86d081884c7d659a2feaa0c55ad015a3bf4f1b2b0b822cd15d6c15b0f00a08"
          (TransactionCacheKind.make_raw TransactionCacheKind.MIHOMO_PLAYER (some "EN")) :=
  ⟨rfl, by decide, rfl⟩

/-- Claim C2 (amended): the store keys addressed by `set_gen_cache` are
injective over `(token, kind, suffix)` tuples provided the token is
colon-free (as every issued token is), the suffix is not the empty string
(which the builder collapses to the bare kind, see C10), and the two kinds
are not the overlapping pair `mihomo` / `mihomo:player`, whose keys can
coincide as C2_counterexample shows. -/
theorem C2_gen_cache_key_inj (t₁ t₂ k₁ k₂ : String) (s₁ s₂ : Option String)
    (hv₁ : TransactionCacheKind.is_valid k₁ = true)
    (hv₂ : TransactionCacheKind.is_valid k₂ = true)
    (ht₁ : noColon t₁) (ht₂ : noColon t₂)
    (hs₁ : s₁ ≠ some "") (hs₂ : s₂ ≠ some "")
    (hmix : ¬((k₁ = TransactionCacheKind.MIHOMO ∧ k₂ = TransactionCacheKind.MIHOMO_PLAYER) ∨
        (k₁ = TransactionCacheKind.MIHOMO_PLAYER ∧ k₂ = TransactionCacheKind.MIHOMO)))
    (heq : TransactionsHelper.genCacheKey t₁ (TransactionCacheKind.make_raw k₁ s₁)
        = TransactionsHelper.genCacheKey t₂ (TransactionCacheKind.make_raw k₂ s₂)) :
    t₁ = t₂ ∧ k₁ = k₂ ∧ s₁ = s₂ := by
  have hdata := congrArg String.data heq
  simp only [TransactionsHelper.genCacheKey, TransactionsHelper.KEY, sdata_append,
    List.append_assoc, List.singleton_append] at hdata
  have h1 := List.append_cancel_left hdata
  have h2 : t₁.data ++ ':' :: (TransactionCacheKind.make_raw k₁ s₁).data
      = t₂.data ++ ':' :: (TransactionCacheKind.make_raw k₂ s₂).data := by
    injection h1
  obtain ⟨htt, hrr⟩ := split_colon _ _ _ _ ht₁ ht₂ h2
  obtain ⟨hkk, hss⟩ := make_raw_inj hv₁ hv₂ hs₁ hs₂ hmix (sext hrr)
  exact ⟨sext htt, hkk, hss⟩

theorem flatMap_byteHex_length (l : List (Fin 256)) :
    (l.flatMap TransactionsHelper.byteHex).length = 2 * l.length := by
  induction l with
  | nil => rfl
  | cons b bs ih =>
    simp only [List.flatMap_cons, List.length_append, ih, List.length_cons]
    simp [TransactionsHelper.byteHex]
    omega

theorem token_hex_length (l : List (Fin 256)) :
    (TransactionsHelper.token_hex l).length = 2 * l.length :=
  flatMap_byteHex_length l

theorem mem_hexChars_byteHex (b : Fin 256) :
    ∀ c ∈ TransactionsHelper.byteHex b, c ∈ TransactionsHelper.hexChars := by
  intro c hc
  have hlt := b.isLt
  have h16a : b.val / 16 < 16 := by omega
  have h16b : b.val % 16 < 16 := Nat.mod_lt _ (by omega)
  have hg : ∀ n, n < 16 → TransactionsHelper.hexChars.getD n '0'
      ∈ TransactionsHelper.hexChars := by decide
  simp only [TransactionsHelper.byteHex, List.mem_cons, List.mem_singleton,
    List.not_mem_nil, or_false] at hc
  rcases hc with rfl | rfl
  · exact hg _ h16a
  · exact hg _ h16b

theorem token_hex_hex_only (l : List (Fin 256)) :
    ∀ c ∈ (TransactionsHelper.token_hex l).data, c ∈ TransactionsHelper.hexChars := by
  intro c hc
  rw [show (TransactionsHelper.token_hex l).data = l.flatMap TransactionsHelper.byteHex
    from rfl, List.mem_flatMap] at hc
  obtain ⟨b, _, hcb⟩ := hc
  exact mem_hexChars_byteHex b c hcb

/-- Claim C6: `create` issues a token of exactly 64 lowercase hexadecimal
characters (the hex encoding of the 32 drawn random bytes) and stores the
record at `{registry-namespace}:{token}` with exactly the caller TTL as
its expiry. -/
theorem C6_create_token_and_storage (randomBytes : List (Fin 256))
    (hlen : randomBytes.length = 32) (record : RVal) (ttl : Nat) (store : Store) :
    (TransactionsHelper.create store randomBytes record ttl).1.length = 64
    ∧ (∀ c ∈ (TransactionsHelper.create store randomBytes record ttl).1.data,
        c ∈ TransactionsHelper.hexChars)
    ∧ rawEntry (TransactionsHelper.create store randomBytes record ttl).2
        (TransactionsHelper.KEY ++ ":"
          ++ (TransactionsHelper.create store randomBytes record ttl).1)
        = some (record, ttl) := by
  refine ⟨?_, token_hex_hex_only randomBytes, ?_⟩
  · show (TransactionsHelper.token_hex randomBytes).length = 64
    rw [token_hex_length, hlen]
  · exact rawEntry_setex_self store
      (TransactionsHelper.trKey (TransactionsHelper.token_hex randomBytes)) record ttl

/-- Witness for C6 at 32 concrete bytes: the token of byte `0xab`
repeated. -/
theorem C6_witness :
    (TransactionsHelper.create ([] : Store) (List.replicate 32 (171 : Fin 256))
        (RVal.trHoyolab ⟨100000001, 900001, "abc", none, none⟩) 259200).1.length = 64
    ∧ (∀ c ∈ (TransactionsHelper.create ([] : Store) (List.replicate 32 (171 : Fin 256))
          (RVal.trHoyolab ⟨100000001, 900001, "abc", none, none⟩) 259200).1.data,
        c ∈ TransactionsHelper.hexChars)
    ∧ rawEntry (TransactionsHelper.create ([] : Store) (List.replicate 32 (171 : Fin 256))
          (RVal.trHoyolab ⟨100000001, 900001, "abc", none, none⟩) 259200).2
        (TransactionsHelper.KEY ++ ":"
          ++ (TransactionsHelper.create ([] : Store) (List.replicate 32 (171 : Fin 256))
              (RVal.trHoyolab ⟨100000001, 900001, "abc", none, none⟩) 259200).1)
        = some (RVal.trHoyolab ⟨100000001, 900001, "abc", none, none⟩, 259200) :=
  C6_create_token_and_storage (List.replicate 32 (171 : Fin 256)) (by decide)
    (RVal.trHoyolab ⟨100000001, 900001, "abc", none, none⟩) 259200 ([] : Store)

/-- Claim C1: for either credential-record variant and any positive TTL,
`create` followed immediately by `get` with the matching expected type and
the returned token yields the stored record. -/
theorem C1_round_trip (store : Store) (randomBytes : List (Fin 256)) (ttl : Nat)
    (httl : 0 < ttl) :
    (∀ tr : TransactionHoyolab,
      TransactionsHelper.getHoyolab
        (TransactionsHelper.create store randomBytes (RVal.trHoyolab tr) ttl).2
        (TransactionsHelper.create store randomBytes (RVal.trHoyolab tr) ttl).1
        = some tr)
    ∧ (∀ tm : TransactionMihomo,
      TransactionsHelper.getMihomo
        (TransactionsHelper.create store randomBytes (RVal.trMihomo tm) ttl).2
        (TransactionsHelper.create store randomBytes (RVal.trMihomo tm) ttl).1
        = some tm) := by
  constructor
  · intro tr
    simp [TransactionsHelper.getHoyolab, TransactionsHelper.create,
      redisGet_setex_self, httl, RVal.asTrHoyolab]
  · intro tm
    simp [TransactionsHelper.getMihomo, TransactionsHelper.create,
      redisGet_setex_self, httl, RVal.asTrMihomo]

/-- Witness for C1: a concrete record of each variant round-trips. -/
theorem C1_witness :
    TransactionsHelper.getHoyolab
      (TransactionsHelper.create ([] : Store) (List.replicate 32 (0 : Fin 256))
        (RVal.trHoyolab ⟨100000001, 900001, "abc", none, none⟩) 259200).2
      (TransactionsHelper.create ([] : Store) (List.replicate 32 (0 : Fin 256))
        (RVal.trHoyolab ⟨100000001, 900001, "abc", none, none⟩) 259200).1
      = some ⟨100000001, 900001, "abc", none, none⟩
    ∧ TransactionsHelper.getMihomo
      (TransactionsHelper.create ([] : Store) (List.replicate 32 (0 : Fin 256))
        (RVal.trMihomo ⟨100000001, ⟨1, [2, 3]⟩⟩) 300).2
      (TransactionsHelper.create ([] : Store) (List.replicate 32 (0 : Fin 256))
        (RVal.trMihomo ⟨100000001, ⟨1, [2, 3]⟩⟩) 300).1
      = some ⟨100000001, ⟨1, [2, 3]⟩⟩ :=
  ⟨(C1_round_trip ([] : Store) (List.replicate 32 (0 : Fin 256)) 259200 (by decide)).1 _,
   (C1_round_trip ([] : Store) (List.replicate 32 (0 : Fin 256)) 300 (by decide)).2 _⟩

/-- Claim C9: the memoization wrapper returns a live cached value without
consulting the upstream call and without touching the store; on a miss it
passes any exception through with the store unchanged, and memoizes a
successful value for 60 seconds. -/
theorem C9_wrap_memoization {β : Type} (proj : RVal → Option β) (inj : β → RVal)
    (store : Store) (cache_key : String) :
    (∀ v₀, (redisGet store cache_key).bind proj = some v₀ →
      ∀ call, wrap_hoyo_call proj inj store cache_key call
        = (UpstreamResult.ok v₀, store))
    ∧ ((redisGet store cache_key).bind proj = none →
      (∀ e, wrap_hoyo_call proj inj store cache_key (UpstreamResult.err e)
          = (UpstreamResult.err e, store))
      ∧ (∀ v, wrap_hoyo_call proj inj store cache_key (UpstreamResult.ok v)
          = (UpstreamResult.ok v, redisSetex store cache_key (inj v) 60))) := by
  constructor
  · intro v₀ hhit call
    simp [wrap_hoyo_call, hhit]
  · intro hmiss
    exact ⟨fun e => by simp [wrap_hoyo_call, hmiss],
      fun v => by simp [wrap_hoyo_call, hmiss]⟩

/-- Witness for C9: a cached hit short-circuits an erroring call; on the
empty store an error leaves the store unchanged and a success writes the
60-second entry. -/
theorem C9_witness :
    wrap_hoyo_call RVal.asNtData RVal.ntData
        [("k", RVal.ntData (some ⟨5⟩), 60)] "k" (UpstreamResult.err HYErrKind.otherExn)
      = (UpstreamResult.ok (some ⟨5⟩), [("k", RVal.ntData (some ⟨5⟩), 60)])
    ∧ wrap_hoyo_call RVal.asNtData RVal.ntData ([] : Store) "k"
        (UpstreamResult.err HYErrKind.otherExn)
      = (UpstreamResult.err HYErrKind.otherExn, ([] : Store))
    ∧ wrap_hoyo_call RVal.asNtData RVal.ntData ([] : Store) "k"
        (UpstreamResult.ok (some ⟨7⟩))
      = (UpstreamResult.ok (some ⟨7⟩),
          redisSetex ([] : Store) "k" (RVal.ntData (some ⟨7⟩)) 60) :=
  ⟨(C9_wrap_memoization RVal.asNtData RVal.ntData _ "k").1 (some ⟨5⟩) (by rfl) _,
   ((C9_wrap_memoization RVal.asNtData RVal.ntData ([] : Store) "k").2 (by rfl)).1 _,
   ((C9_wrap_memoization RVal.asNtData RVal.ntData ([] : Store) "k").2 (by rfl)).2 _⟩

/-- Claim C7 (code bug): with 3 floors fetched and 1-based floor 4, the
re-mapped internal index is `3 - 4 = -1`, which is out of range of the
floor list; the route nevertheless serves a card (for the floor stored at
internal index 2, reached through Python negative indexing) instead of the
400 invalid-index error its own `IndexError` handler was written to
return. -/
theorem C7_out_of_range_floor_served :
    (create_chronicles_moc
        ⟨UpstreamResult.ok (some ⟨[10, 20, 30]⟩), fun f => [f], 900⟩
        "current" 4 "TOK" "en-US" true
        [(TransactionsHelper.trKey "TOK",
          RVal.trHoyolab ⟨100000001, 900001, "abc", none, none⟩, 100)]).1
      = Outcome.served [30]
    ∧ pyGetElem ([10, 20, 30] : List Nat) ((3 : Int) - 4) = some 30
    ∧ ¬(4 : Int) < 1 :=
  ⟨by decide, by decide, by decide⟩

/-- Claim C8 (code bug): for every settings object and every supplied
shared-secret header, the strict-mode gate raises `AttributeError` before
producing any response, because `App` declares no `strict_mode` (nor
`strict_token`) field; and even its denial branch could never build the
intended envelope, because `ErrorCode` has no `STRICT_MODE_DISALLOW`
member. -/
theorem C8_strict_gate_attribute_error (app : App) (x_token : Option String) :
    info_route_strict_gate app x_token = Except.error "AttributeError: strict_mode"
    ∧ App.getattr app "strict_mode" = none
    ∧ App.getattr app "strict_token" = none
    ∧ ErrorCode.fromName "STRICT_MODE_DISALLOW" = none :=
  ⟨rfl, rfl, rfl, rfl⟩

/-- Claim C3 (counterexample): on the Mihomo profile-card route, a request
whose token does not resolve (no credential record in the store) but whose
generation-cache key holds an image is served that cached image with
status 200 instead of terminating with the InvalidToken error. -/
theorem C3_counterexample :
    (create_profile_card ⟨MihomoCall.httpError 500, fun c => [c], 900⟩ 1 none
        (some "T") "en-US" false
        [(TransactionsHelper.genCacheKey "T"
            (TransactionCacheKind.make_raw TransactionCacheKind.MIHOMO
              (some (mihomoCharaMeta 1 QingqueLanguage.EN false))),
          RVal.blob [9], 300)]).1
      = Outcome.served [9]
    ∧ TransactionsHelper.getMihomo
        [(TransactionsHelper.genCacheKey "T"
            (TransactionCacheKind.make_raw TransactionCacheKind.MIHOMO
              (some (mihomoCharaMeta 1 QingqueLanguage.EN false))),
          RVal.blob [9], 300)] "T" = none :=
  ⟨by decide, by decide⟩

/-- Claim C3 (amended): on the HoyoLab card routes (overview and Memory of
Chaos modelled here), once the preceding parameter gates pass, an absent
token resolution terminates the request with the InvalidToken error (403)
and an untouched store, before any cache read or render; on the Mihomo
profile-card route the same holds only when the generation cache misses,
since a cached image under the supplied token is served even when the
token record is absent (see C3_counterexample). -/
theorem C3_token_gate :
    (∀ (env : ChroniclesEnv) (token lang : String) (q : QingqueLanguage)
        (nocache : Bool) (store : Store),
      QingqueLanguage.parse lang = some q →
      TransactionsHelper.getHoyolab store token = none →
      create_chronicles_card env token lang nocache store
        = (Outcome.jsonError ErrorCode.TR_INVALID_TOKEN 403, store))
    ∧ (∀ (env : MoCEnv) (kind : String) (floor : Int) (token lang : String)
        (q : QingqueLanguage) (qk : HYMoCKind) (nocache : Bool) (store : Store),
      QingqueLanguage.parse lang = some q →
      HYMoCKind.parse kind = some qk →
      ¬floor < 1 →
      TransactionsHelper.getHoyolab store token = none →
      create_chronicles_moc env kind floor token lang nocache store
        = (Outcome.jsonError ErrorCode.TR_INVALID_TOKEN 403, store))
    ∧ (∀ (env : MihomoEnv) (character : Int) (uid : Option Int) (t lang : String)
        (q : QingqueLanguage) (detailed : Bool) (store : Store),
      QingqueLanguage.parse lang = some q →
      TransactionsHelper.getMihomo store t = none →
      TransactionsHelper.get_gen_cache store t
        (TransactionCacheKind.make_raw TransactionCacheKind.MIHOMO
          (some (mihomoCharaMeta character q detailed))) = none →
      create_profile_card env character uid (some t) lang detailed store
        = (Outcome.jsonError ErrorCode.TR_INVALID_TOKEN 403, store)) := by
  refine ⟨?_, ?_, ?_⟩
  · intro env token lang q nocache store hq htr
    simp [create_chronicles_card, hq, htr]
  · intro env kind floor token lang q qk nocache store hq hk hfl htr
    simp [create_chronicles_moc, hq, hk, hfl, htr]
  · intro env character uid t lang q detailed store hq htr hgc
    simp [create_profile_card, hq, htr, hgc]

/-- Witness for C3 at concrete requests against an empty store. -/
theorem C3_witness :
    create_chronicles_card
        ⟨UpstreamResult.err HYErrKind.otherExn, UpstreamResult.err HYErrKind.otherExn,
          fun _ _ => [], 0⟩ "T" "en-US" false ([] : Store)
      = (Outcome.jsonError ErrorCode.TR_INVALID_TOKEN 403, ([] : Store))
    ∧ create_chronicles_moc ⟨UpstreamResult.err HYErrKind.otherExn, fun _ => [], 0⟩
        "current" 1 "T" "en-US" false ([] : Store)
      = (Outcome.jsonError ErrorCode.TR_INVALID_TOKEN 403, ([] : Store))
    ∧ create_profile_card ⟨MihomoCall.httpError 500, fun _ => [], 0⟩ 1 none
        (some "T") "en-US" false ([] : Store)
      = (Outcome.jsonError ErrorCode.TR_INVALID_TOKEN 403, ([] : Store)) :=
  ⟨C3_token_gate.1 _ "T" "en-US" QingqueLanguage.EN false ([] : Store) rfl rfl,
   C3_token_gate.2.1 _ "current" 1 "T" "en-US" QingqueLanguage.EN HYMoCKind.Current
     false ([] : Store) rfl rfl (by decide) rfl,
   C3_token_gate.2.2 _ 1 none "T" "en-US" QingqueLanguage.EN false ([] : Store)
     rfl rfl rfl⟩

/-- Witness for C2: equal keys force equal tuples at a concrete
instantiation. -/
theorem C2_witness :
    ("ab1c" : String) = "ab1c" ∧ TransactionCacheKind.HY_MOC = TransactionCacheKind.HY_MOC
      ∧ (some "current:FLOOR_1:en-US" : Option String) = some "current:FLOOR_1:en-US" :=
  C2_gen_cache_key_inj "ab1c" "ab1c" TransactionCacheKind.HY_MOC TransactionCacheKind.HY_MOC
    (some "current:FLOOR_1:en-US") (some "current:FLOOR_1:en-US")
    (by decide) (by decide) (by decide) (by decide) (by decide) (by decide)
    (by decide) rfl

/-! ## Key-disjointness facts for the cache-bypass claim -/

theorem trKey_str (t : String) :
    TransactionsHelper.trKey t = "qingque:transactions:" ++ t := rfl

theorem genCacheKey_str (t c : String) :
    TransactionsHelper.genCacheKey t c
      = "qingque:transactions:" ++ (t ++ (":" ++ c)) := by
  show (((TransactionsHelper.KEY ++ ":") ++ t) ++ ":") ++ c = _
  rw [show TransactionsHelper.KEY ++ ":" = "qingque:transactions:" from rfl]
  apply sext
  simp only [sdata_append, List.append_assoc]

theorem hoyoWrapKey_str (token fn a k : String) :
    hoyoWrapKey token fn a k
      = "qingque::hoyolabcache::"
          ++ (token ++ ("::" ++ (fn ++ ("::args:" ++ (a ++ ("::kwargs:" ++ k)))))) := by
  apply sext
  simp only [hoyoWrapKey, sdata_append, List.append_assoc]

theorem trKey_ne_hoyoWrapKey (t token fn a k : String) :
    TransactionsHelper.trKey t ≠ hoyoWrapKey token fn a k := by
  rw [trKey_str, hoyoWrapKey_str]
  exact take_ne_extend 9 (by decide) (by decide) (by decide) _ _

theorem trKey_ne_genCacheKey (t c : String) :
    TransactionsHelper.trKey t ≠ TransactionsHelper.genCacheKey t c := by
  rw [trKey_str, genCacheKey_str]
  intro h
  have hd := congrArg String.data h
  rw [sdata_append, sdata_append] at hd
  have h2 := List.append_cancel_left hd
  have h3 := congrArg List.length h2
  rw [sdata_append, sdata_append] at h3
  simp only [List.length_append,
    show (":" : String).data.length = 1 from rfl] at h3
  omega

theorem hoyoWrapKey_ne_of_fn {fn₁ fn₂ : String} (n : Nat)
    (hl₁ : n ≤ fn₁.data.length) (hl₂ : n ≤ fn₂.data.length)
    (hd : fn₁.data.take n ≠ fn₂.data.take n) (token a₁ k₁ a₂ k₂ : String) :
    hoyoWrapKey token fn₁ a₁ k₁ ≠ hoyoWrapKey token fn₂ a₂ k₂ := by
  rw [hoyoWrapKey_str, hoyoWrapKey_str]
  intro h
  have hdata := congrArg String.data h
  simp only [sdata_append] at hdata
  have h1 := List.append_cancel_left hdata
  have h2 := List.append_cancel_left h1
  have h3 := List.append_cancel_left h2
  apply hd
  calc fn₁.data.take n
      = (fn₁.data ++ _).take n := (List.take_append_of_le_length hl₁).symm
    _ = (fn₂.data ++ _).take n := by rw [h3]
    _ = fn₂.data.take n := List.take_append_of_le_length hl₂

theorem notesWrapKey_ne_overviewWrapKey (token : String) (tr : TransactionHoyolab)
    (q : QingqueLanguage) :
    notesWrapKey token tr q ≠ overviewWrapKey token tr q :=
  hoyoWrapKey_ne_of_fn 26 (by decide) (by decide) (by decide) token _ _ _ _

theorem trKey_ne_overviewWrapKey (t token : String) (tr : TransactionHoyolab)
    (q : QingqueLanguage) :
    TransactionsHelper.trKey t ≠ overviewWrapKey token tr q :=
  trKey_ne_hoyoWrapKey t token _ _ _

theorem trKey_ne_notesWrapKey (t token : String) (tr : TransactionHoyolab)
    (q : QingqueLanguage) :
    TransactionsHelper.trKey t ≠ notesWrapKey token tr q :=
  trKey_ne_hoyoWrapKey t token _ _ _

/-- Claim C5: with `nocache=true` on the chronicles card route, the
generation-cache read is skipped (the outcome is the freshly rendered
bytes no matter what the cache holds) but the generation-cache write is
still performed, so the immediately following identical request with
`nocache=false` is served those freshly written bytes from the cache,
leaving the store untouched. -/
theorem C5_nocache_bypass (env : ChroniclesEnv) (token lang : String)
    (q : QingqueLanguage) (tr : TransactionHoyolab) (store : Store)
    (ov : ChronicleUserOverview) (nt : ChronicleNotes) (x y : Nat)
    (hq : QingqueLanguage.parse lang = some q)
    (htr : TransactionsHelper.getHoyolab store token = some tr)
    (hov : env.overviewCall = UpstreamResult.ok (some ov))
    (hov1 : ov.overview = some x) (hov2 : ov.user_info = some y)
    (hnt : env.notesCall = UpstreamResult.ok (some nt))
    (hm1 : redisGet store (overviewWrapKey token tr q) = none)
    (hm2 : redisGet store (notesWrapKey token tr q) = none)
    (httl : 0 < env.imageTtl) :
    (create_chronicles_card env token lang true store).1
        = Outcome.served (env.render ov nt)
    ∧ create_chronicles_card env token lang false
        (create_chronicles_card env token lang true store).2
      = (Outcome.served (env.render ov nt),
         (create_chronicles_card env token lang true store).2) := by
  have hwrap1 : wrap_hoyo_call RVal.asOvData RVal.ovData store
      (overviewWrapKey token tr q) env.overviewCall
      = (UpstreamResult.ok (some ov),
         redisSetex store (overviewWrapKey token tr q) (RVal.ovData (some ov)) 60) := by
    simp [wrap_hoyo_call, hm1, hov]
  have hm2b : redisGet (redisSetex store (overviewWrapKey token tr q)
      (RVal.ovData (some ov)) 60) (notesWrapKey token tr q) = none := by
    rw [redisGet_setex_ne _ _ _ (notesWrapKey_ne_overviewWrapKey token tr q)]
    exact hm2
  have hwrap2 : wrap_hoyo_call RVal.asNtData RVal.ntData
      (redisSetex store (overviewWrapKey token tr q) (RVal.ovData (some ov)) 60)
      (notesWrapKey token tr q) env.notesCall
      = (UpstreamResult.ok (some nt),
         redisSetex
           (redisSetex store (overviewWrapKey token tr q) (RVal.ovData (some ov)) 60)
           (notesWrapKey token tr q) (RVal.ntData (some nt)) 60) := by
    simp [wrap_hoyo_call, hm2b, hnt]
  have hfirst : create_chronicles_card env token lang true store
      = (Outcome.served (env.render ov nt),
         TransactionsHelper.set_gen_cache
           (redisSetex
             (redisSetex store (overviewWrapKey token tr q) (RVal.ovData (some ov)) 60)
             (notesWrapKey token tr q) (RVal.ntData (some nt)) 60)
           token
           (hoyolabCacheKey TransactionCacheKind.HY_CHRONICLES tr
             ("overview:" ++ q.value))
           (env.render ov nt) env.imageTtl) := by
    simp [create_chronicles_card, hq, htr, chronicles_generate, hwrap1, hwrap2,
      hov1, hov2]
  have hres3 : TransactionsHelper.getHoyolab
      (TransactionsHelper.set_gen_cache
        (redisSetex
          (redisSetex store (overviewWrapKey token tr q) (RVal.ovData (some ov)) 60)
          (notesWrapKey token tr q) (RVal.ntData (some nt)) 60)
        token
        (hoyolabCacheKey TransactionCacheKind.HY_CHRONICLES tr
          ("overview:" ++ q.value))
        (env.render ov nt) env.imageTtl) token = some tr := by
    simp only [TransactionsHelper.getHoyolab, TransactionsHelper.set_gen_cache]
    rw [redisGet_setex_ne _ _ _ (trKey_ne_genCacheKey token _),
      redisGet_setex_ne _ _ _ (trKey_ne_notesWrapKey token token tr q),
      redisGet_setex_ne _ _ _ (trKey_ne_overviewWrapKey token token tr q)]
    exact htr
  have hgen3 : TransactionsHelper.get_gen_cache
      (TransactionsHelper.set_gen_cache
        (redisSetex
          (redisSetex store (overviewWrapKey token tr q) (RVal.ovData (some ov)) 60)
          (notesWrapKey token tr q) (RVal.ntData (some nt)) 60)
        token
        (hoyolabCacheKey TransactionCacheKind.HY_CHRONICLES tr
          ("overview:" ++ q.value))
        (env.render ov nt) env.imageTtl) token
      (hoyolabCacheKey TransactionCacheKind.HY_CHRONICLES tr
        ("overview:" ++ q.value)) = some (env.render ov nt) := by
    simp [TransactionsHelper.get_gen_cache, TransactionsHelper.set_gen_cache,
      redisGet_setex_self, httl, RVal.asBlob]
  constructor
  · rw [hfirst]
  · rw [hfirst]
    simp [create_chronicles_card, hq, hres3, hgen3]

/-- Witness for C5 at a concrete request: the fresh bytes `[1, 7]` are
served by the bypassing call and again by the following cached call. -/
theorem C5_witness :
    (create_chronicles_card
        ⟨UpstreamResult.ok (some ⟨some 1, some 2⟩), UpstreamResult.ok (some ⟨7⟩),
          fun ov nt => [ov.overview.getD 0, nt.payload], 900⟩
        "TOK" "en-US" true
        [(TransactionsHelper.trKey "TOK",
          RVal.trHoyolab ⟨100000001, 900001, "abc", none, none⟩, 100)]).1
      = Outcome.served [1, 7]
    ∧ create_chronicles_card
        ⟨UpstreamResult.ok (some ⟨some 1, some 2⟩), UpstreamResult.ok (some ⟨7⟩),
          fun ov nt => [ov.overview.getD 0, nt.payload], 900⟩
        "TOK" "en-US" false
        (create_chronicles_card
          ⟨UpstreamResult.ok (some ⟨some 1, some 2⟩), UpstreamResult.ok (some ⟨7⟩),
            fun ov nt => [ov.overview.getD 0, nt.payload], 900⟩
          "TOK" "en-US" true
          [(TransactionsHelper.trKey "TOK",
            RVal.trHoyolab ⟨100000001, 900001, "abc", none, none⟩, 100)]).2
      = (Outcome.served [1, 7],
         (create_chronicles_card
           ⟨UpstreamResult.ok (some ⟨some 1, some 2⟩), UpstreamResult.ok (some ⟨7⟩),
             fun ov nt => [ov.overview.getD 0, nt.payload], 900⟩
           "TOK" "en-US" true
           [(TransactionsHelper.trKey "TOK",
             RVal.trHoyolab ⟨100000001, 900001, "abc", none, none⟩, 100)]).2) :=
  C5_nocache_bypass
    ⟨UpstreamResult.ok (some ⟨some 1, some 2⟩), UpstreamResult.ok (some ⟨7⟩),
      fun ov nt => [ov.overview.getD 0, nt.payload], 900⟩
    "TOK" "en-US" QingqueLanguage.EN ⟨100000001, 900001, "abc", none, none⟩
    [(TransactionsHelper.trKey "TOK",
      RVal.trHoyolab ⟨100000001, 900001, "abc", none, none⟩, 100)]
    ⟨some 1, some 2⟩ ⟨7⟩ 1 2 rfl (by decide) rfl rfl rfl rfl
    (by decide) (by decide) (by decide)

end Qingque
